import Mathlib

/-!
Shallow embedding of the AntSimulacrum core (src/src/pheromone/mod.rs,
src/src/environment/mod.rs, src/src/colony/mod.rs, src/src/ant/mod.rs).

Floating point (`f32`) is modelled by exact rationals `ℚ`.  The code's float
literals are read at face value (0.005 is the rational 1/200, etc.).  The two
genuinely float-specific behaviours that matter for the claims are modelled
exactly:
  * the Rust cast `f as usize` truncates toward zero and saturates below at 0,
    so negative coordinates land in cell 0 (`f32_to_usize`);
  * the Rust `%` operator on floats is a remainder carrying the sign of the
    dividend (`rrem`).
Trigonometric functions (`cos`, `sin`, `atan2`) and the process-wide RNG
(`rand::random::<f32>()`, which yields values in [0,1)) have no exact rational
counterpart; they are supplied as an explicit context `Ctx` (an oracle for the
trig functions and a stream for the RNG), and every simulation function
threads the index of the next RNG draw exactly as the source consumes draws.
-/

namespace AntSim

/-- Rust `expr as usize` on an `f32`: truncation toward zero, saturating at 0
for negative inputs (`(-0.5f32) as usize == 0`).  For `q ≥ 0` the floor equals
the truncation, and for `q < 0` the floor is negative so `Int.toNat` yields 0,
matching the saturation. -/
def f32_to_usize (q : ℚ) : ℕ := (⌊q⌋).toNat

/-- Truncation of a rational toward zero, as used by Rust float `%`. -/
def qtrunc (q : ℚ) : ℤ := if 0 ≤ q then ⌊q⌋ else ⌈q⌉

/-- Rust `%` on floats: `a % b = a - b * trunc (a / b)`; the result has the
sign of the dividend `a`. -/
def rrem (a b : ℚ) : ℚ := a - b * qtrunc (a / b)

/-- Exact rational value of the `f32` constant `std::f32::consts::PI`
(bit pattern 0x40490FDB). -/
def pi32 : ℚ := 13176795 / 4194304

/-- src/src/pheromone/mod.rs: `enum PheromoneType { Food, Home }`. -/
inductive PheromoneType where
  | Food
  | Home
  deriving DecidableEq, Repr

/-- Key of the sparse pheromone map: `(grid_x, grid_y, pheromone_type)`. -/
abbrev PKey := ℕ × ℕ × PheromoneType

/-- First value stored under a key, mirroring `HashMap::get`.  The embedding
keeps the map as an association list whose keys stay unique because inserts
replace in place. -/
def findP : List (PKey × ℚ) → PKey → Option ℚ
  | [], _ => none
  | e :: m, k => if e.1 = k then some e.2 else findP m k

/-- `HashMap::insert`: replace the value of an existing key, otherwise append. -/
def insertP : List (PKey × ℚ) → PKey → ℚ → List (PKey × ℚ)
  | [], k, v => [(k, v)]
  | e :: m, k, v => if e.1 = k then (k, v) :: m else e :: insertP m k v

/-- src/src/pheromone/mod.rs: `struct PheromoneSystem`. -/
structure PheromoneSystem where
  pheromones : List (PKey × ℚ)
  grid_size : ℚ
  width : ℕ
  height : ℕ
  deriving DecidableEq, Repr

namespace PheromoneSystem

/-- `PheromoneSystem::new(width, height, grid_size)`. -/
def new (width height : ℕ) (grid_size : ℚ) : PheromoneSystem :=
  { pheromones := []
    grid_size := grid_size
    width := f32_to_usize ((width : ℚ) / grid_size)
    height := f32_to_usize ((height : ℚ) / grid_size) }

/-- `PheromoneSystem::add_pheromone(x, y, pheromone_type, strength)`:
out-of-bounds cells are a silent no-op, otherwise the strength accumulates
and is capped at 1.0 (`(current + strength).min(1.0)`). -/
def add_pheromone (ps : PheromoneSystem) (x y : ℚ) (pheromone_type : PheromoneType)
    (strength : ℚ) : PheromoneSystem :=
  let grid_x := f32_to_usize (x / ps.grid_size)
  let grid_y := f32_to_usize (y / ps.grid_size)
  if ps.width ≤ grid_x ∨ ps.height ≤ grid_y then ps
  else
    let key : PKey := (grid_x, grid_y, pheromone_type)
    let current_strength := (findP ps.pheromones key).getD 0
    let new_strength := min (current_strength + strength) 1
    { ps with pheromones := insertP ps.pheromones key new_strength }

/-- `PheromoneSystem::get_pheromone(x, y, pheromone_type)`: 0.0 for
out-of-bounds cells or absent entries. -/
def get_pheromone (ps : PheromoneSystem) (x y : ℚ) (pheromone_type : PheromoneType) : ℚ :=
  let grid_x := f32_to_usize (x / ps.grid_size)
  let grid_y := f32_to_usize (y / ps.grid_size)
  if ps.width ≤ grid_x ∨ ps.height ≤ grid_y then 0
  else (findP ps.pheromones (grid_x, grid_y, pheromone_type)).getD 0

/-- `PheromoneSystem::update(delta_time)`: every entry loses
`0.005 * delta_time`, then entries whose strength fell to `≤ 0.001` are
removed.  The source mutates all strengths in place and then removes the
collected weak keys; with unique keys that is a map followed by a filter. -/
def update (ps : PheromoneSystem) (delta_time : ℚ) : PheromoneSystem :=
  let evaporation_rate := (1 / 200 : ℚ) * delta_time
  { ps with pheromones :=
      ((ps.pheromones.map (fun e => (e.1, e.2 - evaporation_rate))).filter
        (fun e => !decide (e.2 ≤ 1 / 1000))) }

end PheromoneSystem

/-- src/src/environment/mod.rs: `enum CellType`. -/
inductive CellType where
  | Empty
  | Wall
  | Food
  | AntNest
  deriving DecidableEq, Repr

/-- src/src/ant/mod.rs: `struct PositionRecord` (for circle detection). -/
structure PositionRecord where
  position : ℚ × ℚ
  time : ℚ
  deriving DecidableEq, Repr

/-- src/src/ant/mod.rs: `struct Ant`. -/
structure Ant where
  position : ℚ × ℚ
  direction : ℚ
  speed : ℚ
  carrying_food : Bool
  home_position : ℚ × ℚ
  pheromone_deposit_timer : ℚ
  ignore_pheromones_timer : ℚ
  id : ℕ
  position_history : List PositionRecord
  lifetime : ℚ
  last_position_record : ℚ
  deriving DecidableEq, Repr

/-- src/src/colony/mod.rs: `struct Colony`. -/
structure Colony where
  position : ℚ × ℚ
  radius : ℚ
  ants : List Ant
  food_stored : ℚ
  max_ants : ℕ
  food_deliveries : ℕ
  deriving DecidableEq, Repr

/-- The `#[derive(Default)]` value of `Colony` used by `std::mem::take` in
`Environment::update`: position at the origin, zero radius, no ants, no food,
zero population cap, zero deliveries. -/
def defaultColony : Colony :=
  { position := (0, 0), radius := 0, ants := [], food_stored := 0
    max_ants := 0, food_deliveries := 0 }

/-- src/src/environment/mod.rs: `struct Environment`.  `CELL_SIZE` is 10.0. -/
structure Environment where
  width : ℕ
  height : ℕ
  grid_width : ℕ
  grid_height : ℕ
  grid : List CellType
  food_amounts : List ((ℕ × ℕ) × ℚ)
  pheromone_system : PheromoneSystem
  colonies : List Colony
  deriving DecidableEq, Repr

/-- Oracle context for the effects the source draws from the outside world:
the unseeded process-wide RNG (`rand::random::<f32>()`, a stream indexed by
the number of draws made so far) and the `f32` trigonometric functions. -/
structure Ctx where
  rng : ℕ → ℚ
  ocos : ℚ → ℚ
  osin : ℚ → ℚ
  oatan2 : ℚ → ℚ → ℚ

namespace Environment

/-- `Environment::new(window_width, window_height)`. -/
def new (window_width window_height : ℕ) : Environment :=
  let grid_width := f32_to_usize ((window_width : ℚ) / 10)
  let grid_height := f32_to_usize ((window_height : ℚ) / 10)
  { width := window_width
    height := window_height
    grid_width := grid_width
    grid_height := grid_height
    grid := List.replicate (grid_width * grid_height) CellType.Empty
    food_amounts := []
    pheromone_system := PheromoneSystem.new window_width window_height 10
    colonies := [] }

/-- `Environment::screen_to_grid(x, y)`: integer division by `CELL_SIZE`
via the saturating Rust cast. -/
def screen_to_grid (_env : Environment) (x y : ℚ) : ℕ × ℕ :=
  (f32_to_usize (x / 10), f32_to_usize (y / 10))

/-- `Environment::is_valid_position(x, y)`. -/
def is_valid_position (env : Environment) (x y : ℕ) : Prop :=
  x < env.grid_width ∧ y < env.grid_height

instance (env : Environment) (x y : ℕ) : Decidable (env.is_valid_position x y) :=
  inferInstanceAs (Decidable (_ ∧ _))

/-- `Environment::get_cell(x, y)`: `Empty` outside the grid.  Inside the grid
the source indexes `grid[y * grid_width + x]`; on a well-formed environment
(`grid.length = grid_width * grid_height`) the index is in bounds, so the
`getD` default is never taken there. -/
def get_cell (env : Environment) (x y : ℕ) : CellType :=
  if env.is_valid_position x y then env.grid.getD (y * env.grid_width + x) CellType.Empty
  else CellType.Empty

/-- `Environment::set_cell(x, y, cell_type)`. -/
def set_cell (env : Environment) (x y : ℕ) (cell_type : CellType) : Environment :=
  if env.is_valid_position x y then
    { env with grid := env.grid.set (y * env.grid_width + x) cell_type }
  else env

end Environment

namespace Colony

/-- src/src/colony/mod.rs: `Colony::add_food(amount)`: increment stored food
and the delivery counter; a colony richer than 100 units grows its population
cap up to the hard ceiling of 200. -/
def add_food (c : Colony) (amount : ℚ) : Colony :=
  let c := { c with food_stored := c.food_stored + amount
                    food_deliveries := c.food_deliveries + 1 }
  if c.food_stored > 100 ∧ c.max_ants < 200 then { c with max_ants := c.max_ants + 1 }
  else c

end Colony

/-- Squared distance `dx*dx + dy*dy` between an ant position and a colony
position, exactly as the delivery checks compute it. -/
def distSq (p q : ℚ × ℚ) : ℚ := (p.1 - q.1) * (p.1 - q.1) + (p.2 - q.2) * (p.2 - q.2)

/-- Index of the first colony whose squared distance to `p` is strictly below
`rsq`; this is where the delivery `for`-loops of `Ant::check_for_food` `break`. -/
def firstWithin (p : ℚ × ℚ) (rsq : ℚ) : List Colony → Option ℕ
  | [] => none
  | c :: cs =>
    if distSq p c.position < rsq then some 0
    else (firstWithin p rsq cs).map (· + 1)

/-- The delivery loop of `Ant::check_for_food`: feed one unit of food to the
first colony within the given squared radius and stop (`break`); report
whether a delivery happened. -/
def deliverFirst (p : ℚ × ℚ) (rsq : ℚ) (cols : List Colony) : List Colony × Bool :=
  match firstWithin p rsq cols with
  | none => (cols, false)
  | some i => (cols.set i ((cols.getD i defaultColony).add_food 1), true)

/-- The `closest_colony` loop of the nest-delivery fallback: the first index
achieving the strictly smallest squared distance (the source starts from
`f32::MAX`, which every actual distance undercuts, so the accumulator is
`none` only on an empty list). -/
def closestLoop (p : ℚ × ℚ) : List Colony → ℕ → Option (ℕ × ℚ) → Option (ℕ × ℚ)
  | [], _, acc => acc
  | c :: cs, i, acc =>
    let d := distSq p c.position
    let better := match acc with
      | none => true
      | some (_, bd) => decide (d < bd)
    closestLoop p cs (i + 1) (if better then some (i, d) else acc)

namespace Ant

/-- src/src/ant/mod.rs lines 533-730: `Ant::check_for_food`.  Three mutually
exclusive branches: food pickup when searching on a `Food` cell; nest delivery
when carrying on an `AntNest` cell (strict radius 50, then nearest colony
within 150, else repoint `home_position`); and off-cell delivery when carrying
within radius 40 of some colony.  Returns the ant, the environment and the
next RNG index. -/
def check_for_food (ctx : Ctx) (a : Ant) (env : Environment) (k : ℕ) :
    Ant × Environment × ℕ :=
  let gxy := env.screen_to_grid a.position.1 a.position.2
  if a.carrying_food = false ∧ env.get_cell gxy.1 gxy.2 = CellType.Food then
    -- take some food; ignore pheromones for a while; drop a strong Food
    -- pheromone at the food location; head home with jitter; escape 15 px
    let a1 := { a with carrying_food := true, ignore_pheromones_timer := 15 }
    let env1 := { env with pheromone_system :=
      env.pheromone_system.add_pheromone a.position.1 a.position.2 PheromoneType.Food (9/10) }
    let dx := a.position.1 - a.home_position.1
    let dy := a.position.2 - a.home_position.2
    let angle_to_home := ctx.oatan2 dy dx
    let d1 := rrem (angle_to_home + pi32) (2 * pi32)
    let d2 := d1 + (ctx.rng k - 1/2) * (1/2)
    let a2 := { a1 with direction := d2
                        position := (a1.position.1 + ctx.ocos d2 * 15,
                                     a1.position.2 + ctx.osin d2 * 15) }
    (a2, env1, k + 1)
  else if a.carrying_food = true ∧ env.get_cell gxy.1 gxy.2 = CellType.AntNest then
    -- deposit food (the flag is cleared before any colony is found)
    let a1 := { a with carrying_food := false }
    let dl := deliverFirst a.position (50 * 50) env.colonies
    let env1 := { env with colonies := dl.1 }
    let step2 : Ant × Environment :=
      if dl.2 then (a1, env1)
      else
        -- relaxed pass: nearest colony, delivered within 150, else re-home
        match closestLoop a.position env1.colonies 0 none with
        | none => (a1, env1)
        | some id' =>
          if id'.2 < 150 * 150 then
            (a1, { env1 with colonies :=
              env1.colonies.set id'.1 ((env1.colonies.getD id'.1 defaultColony).add_food 1) })
          else
            let colony_position := (env1.colonies.getD id'.1 defaultColony).position
            if a1.home_position ≠ colony_position then
              ({ a1 with home_position := colony_position }, env1)
            else (a1, env1)
    let env2 := { step2.2 with pheromone_system :=
      step2.2.pheromone_system.add_pheromone a.position.1 a.position.2 PheromoneType.Home (9/10) }
    let d1 := rrem (step2.1.direction + pi32) (2 * pi32)
    let d2 := d1 + (ctx.rng k - 1/2) * (1/2)
    ({ step2.1 with direction := d2 }, env2, k + 1)
  else if a.carrying_food = true then
    -- off-cell delivery: first colony within radius 40
    match firstWithin a.position (40 * 40) env.colonies with
    | none => (a, env, k)
    | some i =>
      let a1 := { a with carrying_food := false }
      let cols1 := env.colonies.set i ((env.colonies.getD i defaultColony).add_food 1)
      let env1 := { env with colonies := cols1 }
      let env2 := { env1 with pheromone_system :=
        env1.pheromone_system.add_pheromone a.position.1 a.position.2 PheromoneType.Home (9/10) }
      let d1 := rrem (a1.direction + pi32) (2 * pi32)
      let d2 := d1 + (ctx.rng k - 1/2) * (1/2)
      ({ a1 with direction := d2 }, env2, k + 1)
  else (a, env, k)

end Ant

/-- Result of a circle-detection pass: the ant, the environment, the next RNG
index, and a ghost counter of how many escape actions were performed (the
source takes its escape action inline and then `return`s). -/
structure DCRes where
  ant : Ant
  env : Environment
  k : ℕ
  escapes : ℕ
  deriving Repr

/-- The `for record in self.position_history` loop of `Ant::detect_circles`.
The source compares `sqrt(dx*dx + dy*dy) < 10.0`; for nonnegative reals that
is equivalent to `dx*dx + dy*dy < 100`, which is what the embedding tests.
On the first qualifying record the history is cleared, the escape action runs
and the loop `return`s. -/
def detectLoop (ctx : Ctx) (current_pos : ℚ × ℚ) (current_time : ℚ) :
    List PositionRecord → Ant → Environment → ℕ → DCRes
  | [], a, env, k => ⟨a, env, k, 0⟩
  | r :: rs, a, env, k =>
    if current_time - r.time > 3/2 then
      let dx := current_pos.1 - r.position.1
      let dy := current_pos.2 - r.position.2
      if dx * dx + dy * dy < 100 then
        let circle_time := current_time - r.time
        if circle_time > 3/2 then
          -- clear position history to avoid multiple detections
          let a1 := { a with position_history := [] }
          if a1.carrying_food then
            let a2 := { a1 with ignore_pheromones_timer := 25, speed := 5 }
            let dxh := a2.position.1 - a2.home_position.1
            let dyh := a2.position.2 - a2.home_position.2
            let angle_to_home := ctx.oatan2 dyh dxh
            let d1 := rrem (angle_to_home + pi32) (2 * pi32)
            let d2 := d1 + (ctx.rng k - 1/2) * 1
            let a3 := { a2 with direction := d2
                                position := (a2.position.1 + ctx.ocos d2 * 8,
                                             a2.position.2 + ctx.osin d2 * 8) }
            let ph1 := env.pheromone_system.add_pheromone a3.position.1 a3.position.2
              PheromoneType.Home (9/10)
            let env1 := { env with pheromone_system := ph1 }
            ⟨a3, env1, k + 1, 1⟩
          else
            let a2 := { a1 with ignore_pheromones_timer := 10 }
            let d1 := a2.direction + (ctx.rng k - 1/2) * pi32 * (3/2)
            let d2 := rrem (d1 + 2 * pi32) (2 * pi32)
            ⟨{ a2 with direction := d2 }, env, k + 1, 1⟩
        else detectLoop ctx current_pos current_time rs a env k
      else detectLoop ctx current_pos current_time rs a env k
    else detectLoop ctx current_pos current_time rs a env k

namespace Ant

/-- src/src/ant/mod.rs lines 822-919: `Ant::detect_circles`.  Returns
immediately when fewer than 5 history samples exist. -/
def detect_circles (ctx : Ctx) (a : Ant) (env : Environment) (k : ℕ) : DCRes :=
  if a.position_history.length < 5 then ⟨a, env, k, 0⟩
  else detectLoop ctx a.position a.lifetime a.position_history a env k

/-- The sampling distances of `find_strongest_pheromone_direction`
(`sense_distance = 40`, `min_sense_distance = 5`). -/
def sample_points (carrying : Bool) : List ℚ :=
  if carrying then [5, 12, 20, 32, 40] else [5, 10, 20, 30, 40]

/-- src/src/ant/mod.rs lines 387-531: `Ant::find_strongest_pheromone_direction`.
Purely read-only: no RNG draws.  The fold state is
(best strength found so far, best direction so far). -/
def find_strongest_pheromone_direction (ctx : Ctx) (a : Ant) (env : Environment)
    (pheromone_type : PheromoneType) (num_directions : ℕ) : Option ℚ :=
  let best_strength : ℚ :=
    if a.carrying_food ∧ pheromone_type = PheromoneType.Home then 1/500 else 1/20
  let res := (List.range num_directions).foldl
    (fun (acc : ℚ × Option ℚ) (i : ℕ) =>
      let biased_angle :=
        if a.carrying_food then
          ((i : ℚ) / (num_directions : ℚ) - 1/2) * pi32 * (67/100)
        else ((i : ℚ) / (num_directions : ℚ)) * 2 * pi32
      let world_angle := rrem (a.direction + biased_angle) (2 * pi32)
      let skip :=
        if a.carrying_food then
          let angle_diff := rrem (|world_angle - a.direction|) (2 * pi32)
          let back_angle := pi32 * (2/5)
          decide (angle_diff > back_angle) && decide (angle_diff < 2 * pi32 - back_angle)
        else false
      if skip then acc
      else
        (sample_points a.carrying_food).foldl
          (fun (acc : ℚ × Option ℚ) (d : ℚ) =>
            let check_x := a.position.1 + ctx.ocos world_angle * d
            let check_y := a.position.2 + ctx.osin world_angle * d
            let strength := env.pheromone_system.get_pheromone check_x check_y pheromone_type
            let direction_bias :=
              if a.carrying_food then
                let forward_factor :=
                  |rrem (|world_angle - a.direction + pi32|) (2 * pi32) - pi32| / pi32
                forward_factor * (1/10)
              else 0
            let biased_strength := strength + direction_bias
            if biased_strength > acc.1 then (biased_strength, some world_angle) else acc)
          acc)
    (best_strength, none)
  res.2

/-- src/src/ant/mod.rs lines 284-385: `Ant::follow_pheromones`. -/
def follow_pheromones (ctx : Ctx) (a : Ant) (env : Environment) (k : ℕ) : Ant × ℕ :=
  let pheromone_type := if a.carrying_food then PheromoneType.Home else PheromoneType.Food
  let num_directions := if a.carrying_food then 6 else 12
  match find_strongest_pheromone_direction ctx a env pheromone_type num_directions with
  | some best_dir =>
    let angle_diff := rrem (best_dir - a.direction + pi32 * 3) (2 * pi32) - pi32
    let forward_angle_limit := if a.carrying_food then pi32 * (1/2) else pi32 * (2/3)
    let step1 : Ant × ℕ :=
      if |angle_diff| < forward_angle_limit then
        let turn_rate : ℚ := if a.carrying_food then 1/10 else 7/10
        ({ a with direction := a.direction + angle_diff * turn_rate }, k)
      else if ctx.rng k < 1/10 then
        ({ a with direction := a.direction + angle_diff * (2/5) }, k + 1)
      else (a, k + 1)
    let random_variation :=
      if step1.1.carrying_food then (ctx.rng step1.2 - 1/2) * (1/50)
      else (ctx.rng step1.2 - 1/2) * (1/5)
    ({ step1.1 with direction := step1.1.direction + random_variation }, step1.2 + 1)
  | none =>
    let random_chance : ℚ := if a.carrying_food then 4/5 else 2/5
    if ctx.rng k < random_chance then
      let dir_change :=
        if a.carrying_food then (ctx.rng (k + 1) - 1/2) * pi32 * (4/5)
        else (ctx.rng (k + 1) - 1/2) * pi32 * (1/2)
      ({ a with direction := a.direction + dir_change }, k + 2)
    else (a, k + 1)

/-- src/src/ant/mod.rs lines 253-272: the closing boundary clamp of
`Ant::update`.  Crossing the horizontal margin reflects the heading via
`π − heading`, crossing the vertical margin via `−heading`; no normalization
into [0, 2π) is applied. -/
def boundary_bounce (env : Environment) (a : Ant) : Ant :=
  let env_width : ℚ := (env.width : ℚ)
  let env_height : ℚ := (env.height : ℚ)
  let a1 :=
    if a.position.1 < 10 then
      { a with position := (10, a.position.2), direction := pi32 - a.direction }
    else if a.position.1 > env_width - 10 then
      { a with position := (env_width - 10, a.position.2), direction := pi32 - a.direction }
    else a
  if a1.position.2 < 10 then
    { a1 with position := (a1.position.1, 10), direction := - a1.direction }
  else if a1.position.2 > env_height - 10 then
    { a1 with position := (a1.position.1, env_height - 10), direction := - a1.direction }
  else a1

/-- src/src/ant/mod.rs lines 68-273: `Ant::update(delta_time, environment)`.
The steps, in source order: timer bookkeeping and speed restore; position
recording plus circle detection while carrying; periodic pheromone deposit;
homing blend while carrying; random perturbation or pheromone following;
`check_for_food`; movement with wall bounce; boundary clamp.  Logging-only
code is omitted (it draws no randomness). -/
def update (ctx : Ctx) (delta_time : ℚ) (a0 : Ant) (env0 : Environment) (k0 : ℕ) :
    Ant × Environment × ℕ :=
  -- update timers
  let aT := { a0 with pheromone_deposit_timer := a0.pheromone_deposit_timer - delta_time
                      ignore_pheromones_timer := a0.ignore_pheromones_timer - delta_time
                      lifetime := a0.lifetime + delta_time
                      last_position_record := a0.last_position_record + delta_time }
  -- restore normal speed after a circle escape
  let aS := if aT.ignore_pheromones_timer ≤ 1 ∧ aT.speed < 20 then { aT with speed := 20 }
            else aT
  -- record position and run circle detection while carrying food
  let st1 : Ant × Environment × ℕ :=
    if aS.carrying_food = true ∧ aS.last_position_record ≥ 3/10 then
      let hist0 := aS.position_history ++ [{ position := aS.position, time := aS.lifetime }]
      let hist := if hist0.length > 30 then hist0.tail else hist0
      let aH := { aS with position_history := hist, last_position_record := 0 }
      let r := Ant.detect_circles ctx aH env0 k0
      (r.ant, r.env, r.k)
    else (aS, env0, k0)
  let a1 := st1.1
  let env1 := st1.2.1
  let k1 := st1.2.2
  -- deposit pheromones every so often
  let st2 : Ant × Environment :=
    if a1.pheromone_deposit_timer ≤ 0 then
      let pheromone_type := if a1.carrying_food then PheromoneType.Home else PheromoneType.Food
      let strength : ℚ := if a1.carrying_food then 4/5 else 3/10
      let ph := env1.pheromone_system.add_pheromone a1.position.1 a1.position.2
        pheromone_type strength
      ({ a1 with pheromone_deposit_timer := 1/2 }, { env1 with pheromone_system := ph })
    else (a1, env1)
  let a2 := st2.1
  let env2 := st2.2
  -- continuous homing bias while carrying
  let st3 : Ant × ℕ :=
    if a2.carrying_food then
      let dx := a2.position.1 - a2.home_position.1
      let dy := a2.position.2 - a2.home_position.2
      let dist_sq := dx * dx + dy * dy
      if dist_sq > 1/10 then
        let angle_to_home := ctx.oatan2 dy dx
        let home_direction := rrem (angle_to_home + pi32) (2 * pi32)
        let hf : ℚ × ℕ :=
          if a2.ignore_pheromones_timer > 0 then (17/20, k1)
          else if ctx.rng k1 < 9/20 then (7/10, k1 + 1)
          else (3/10, k1 + 1)
        let angle_diff := rrem (home_direction - a2.direction + pi32 * 3) (2 * pi32) - pi32
        let d1 := a2.direction + angle_diff * hf.1
        let d2 := d1 + (ctx.rng hf.2 - 1/2) * (3/20)
        ({ a2 with direction := d2 }, hf.2 + 1)
      else (a2, k1)
    else (a2, k1)
  let a3 := st3.1
  let k2 := st3.2
  -- occasional large random perturbation, otherwise pheromone following
  let st4 : Ant × ℕ :=
    if ctx.rng k2 < (1/20) * delta_time then
      ({ a3 with direction := a3.direction + (ctx.rng (k2 + 1) - 1/2) * pi32 }, k2 + 2)
    else if a3.ignore_pheromones_timer ≤ 0 then
      if ctx.rng (k2 + 1) < 9/10 then Ant.follow_pheromones ctx a3 env2 (k2 + 2)
      else (a3, k2 + 2)
    else (a3, k2 + 1)
  let a4 := st4.1
  let k3 := st4.2
  -- interact with the environment
  let st5 := Ant.check_for_food ctx a4 env2 k3
  let a5 := st5.1
  let env3 := st5.2.1
  let k4 := st5.2.2
  -- movement with wall bounce
  let dx := ctx.ocos a5.direction * a5.speed * delta_time
  let dy := ctx.osin a5.direction * a5.speed * delta_time
  let next_x := a5.position.1 + dx
  let next_y := a5.position.2 + dy
  let gxy := env3.screen_to_grid next_x next_y
  let st6 : Ant × ℕ :=
    if env3.get_cell gxy.1 gxy.2 = CellType.Wall then
      let cgxy := env3.screen_to_grid a5.position.1 a5.position.2
      let horizontal_wall :=
        cgxy.1 ≠ gxy.1 ∧ env3.get_cell gxy.1 cgxy.2 = CellType.Wall
      let vertical_wall :=
        cgxy.2 ≠ gxy.2 ∧ env3.get_cell cgxy.1 gxy.2 = CellType.Wall
      let d1 :=
        if horizontal_wall then pi32 - a5.direction
        else if vertical_wall then - a5.direction
        else rrem (a5.direction + pi32) (2 * pi32)
      let d2 := d1 + (ctx.rng k4 - 1/2) * (1/5)
      ({ a5 with direction := d2
                 position := (a5.position.1 + ctx.ocos d2 * a5.speed * delta_time,
                              a5.position.2 + ctx.osin d2 * a5.speed * delta_time) }, k4 + 1)
    else ({ a5 with position := (next_x, next_y) }, k4)
  -- boundary check: bounce off edges
  (Ant.boundary_bounce env3 st6.1, env3, st6.2)

/-- src/src/ant/mod.rs: `Ant::new(x, y)`: random initial heading in [0, 2π),
speed 20, not carrying, home at the spawn point.  The global atomic ID counter
is threaded explicitly as `nid`. -/
def new (ctx : Ctx) (x y : ℚ) (k nid : ℕ) : Ant × ℕ × ℕ :=
  ({ position := (x, y)
     direction := ctx.rng k * 2 * pi32
     speed := 20
     carrying_food := false
     home_position := (x, y)
     pheromone_deposit_timer := 0
     ignore_pheromones_timer := 0
     id := nid
     position_history := []
     lifetime := 0
     last_position_record := 0 }, k + 1, nid + 1)

end Ant

/-- The `for ant in &mut self.ants` loop of `Colony::update`: each ant updates
against the environment state left by its predecessors. -/
def antsFold (ctx : Ctx) (delta_time : ℚ) :
    List Ant → Environment → ℕ → List Ant × Environment × ℕ
  | [], env, k => ([], env, k)
  | a :: rest, env, k =>
    let r := Ant.update ctx delta_time a env k
    let rr := antsFold ctx delta_time rest r.2.1 r.2.2
    (r.1 :: rr.1, rr.2.1, rr.2.2)

namespace Colony

/-- src/src/colony/mod.rs: `Colony::update(delta_time, environment)`: update
all owned ants, then spawn one new ant at the colony position if the
population is below the cap and more than 10 food is stored (costing 10). -/
def update (ctx : Ctx) (delta_time : ℚ) (c : Colony) (env : Environment) (k nid : ℕ) :
    Colony × Environment × ℕ × ℕ :=
  let r := antsFold ctx delta_time c.ants env k
  if r.1.length < c.max_ants ∧ c.food_stored > 10 then
    let rn := Ant.new ctx c.position.1 c.position.2 r.2.2 nid
    ({ c with ants := r.1 ++ [rn.1], food_stored := c.food_stored - 10 },
     r.2.1, rn.2.1, rn.2.2)
  else ({ c with ants := r.1 }, r.2.1, r.2.2, nid)

end Colony

/-- The body of the colony loop in `Environment::update`: `std::mem::take`
moves colony `i` out (leaving the `Default` placeholder in the list), updates
it against the environment, then writes it back over whatever sits at index
`i`. -/
def colonyStep (ctx : Ctx) (delta_time : ℚ) (env : Environment) (i : ℕ) (k nid : ℕ) :
    Environment × ℕ × ℕ :=
  let colony := env.colonies.getD i defaultColony
  let env1 := { env with colonies := env.colonies.set i defaultColony }
  let r := Colony.update ctx delta_time colony env1 k nid
  ({ r.2.1 with colonies := r.2.1.colonies.set i r.1 }, r.2.2.1, r.2.2.2)

namespace Environment

/-- src/src/environment/mod.rs lines 49-68: `Environment::update(delta_time)`:
decay the pheromone field, then update each colony in index order through the
take/put-back dance of `colonyStep`. -/
def update (ctx : Ctx) (delta_time : ℚ) (env : Environment) (k nid : ℕ) :
    Environment × ℕ × ℕ :=
  let env0 := { env with pheromone_system := env.pheromone_system.update delta_time }
  (List.range env0.colonies.length).foldl
    (fun acc i => colonyStep ctx delta_time acc.1 i acc.2.1 acc.2.2) (env0, k, nid)

end Environment

/-- One write of the grid-copy loop in `Environment::resize`: target cell
`(y, x)` of the new grid receives the old cell when it fits in the new
bounds. -/
def copyCell (old : List CellType) (gw nw nh : ℕ) (g : List CellType) (yx : ℕ × ℕ) :
    List CellType :=
  if yx.2 < nw ∧ yx.1 < nh then
    g.set (yx.1 * nw + yx.2) (old.getD (yx.1 * gw + yx.2) CellType.Empty)
  else g

/-- The full grid-copy double loop of `Environment::resize` (y outer, x
inner), starting from a fresh all-`Empty` grid of the new dimensions. -/
def copyGrid (old : List CellType) (gw gh nw nh : ℕ) : List CellType :=
  ((List.range gh).flatMap (fun y => (List.range gw).map (fun x => (y, x)))).foldl
    (copyCell old gw nw nh) (List.replicate (nw * nh) CellType.Empty)

namespace Environment

/-- src/src/environment/mod.rs lines 217-247: `Environment::resize`: grow the
terrain grid (copying old cells) when either dimension increased, update the
pixel dimensions, and replace the pheromone system by a fresh empty one. -/
def resize (env : Environment) (new_width new_height : ℕ) : Environment :=
  let new_grid_width := f32_to_usize ((new_width : ℚ) / 10)
  let new_grid_height := f32_to_usize ((new_height : ℚ) / 10)
  let env1 :=
    if new_grid_width > env.grid_width ∨ new_grid_height > env.grid_height then
      { env with grid := copyGrid env.grid env.grid_width env.grid_height
                   new_grid_width new_grid_height
                 grid_width := new_grid_width
                 grid_height := new_grid_height }
    else env
  { env1 with width := new_width
              height := new_height
              pheromone_system := PheromoneSystem.new new_width new_height 10 }

end Environment

/-- A deterministic context for concrete runs: every RNG draw yields 1/2 (so
`rng k - 1/2` jitters vanish) and the trig oracle returns 0 everywhere it is
irrelevant to the scenario. -/
def ctx0 : Ctx :=
  { rng := fun _ => 1/2, ocos := fun _ => 0, osin := fun _ => 0, oatan2 := fun _ _ => 0 }

/-- A colony roughly 385 px away from the test ant: outside both the strict
(50) and the lenient (150) delivery radii. -/
def colonyFar : Colony :=
  { position := (400, 0), radius := 30, ants := [], food_stored := 0
    max_ants := 50, food_deliveries := 0 }

/-- 100×100 world whose cell (1,1) is a nest, with `colonyFar` as the only
colony. -/
def envC1 : Environment :=
  { (Environment.new 100 100).set_cell 1 1 CellType.AntNest with colonies := [colonyFar] }

/-- An ant carrying food standing at (15,15), i.e. on the nest cell (1,1),
with its home right where it stands. -/
def antC1 : Ant :=
  { position := (15, 15), direction := 1, speed := 20, carrying_food := true
    home_position := (15, 15), pheromone_deposit_timer := 0
    ignore_pheromones_timer := 0, id := 0, position_history := []
    lifetime := 0, last_position_record := 0 }

/-- 100×100 world whose cell (1,1) is a food cell; no colonies. -/
def envC2 : Environment := (Environment.new 100 100).set_cell 1 1 CellType.Food

/-- A searching ant standing at (15,15), i.e. on the food cell (1,1), with its
home at (50,50). -/
def antC2 : Ant :=
  { position := (15, 15), direction := 1, speed := 20, carrying_food := false
    home_position := (50, 50), pheromone_deposit_timer := 0
    ignore_pheromones_timer := 0, id := 0, position_history := []
    lifetime := 0, last_position_record := 0 }

/-- Context for the pickup scenario: the RNG yields 1/2 (no jitter) and the
trig oracle returns the `f32` values at the angles the run actually uses:
`atan2(-35, -35) ≈ -2.3562` and `cos ≈ sin ≈ 0.7071` at the resulting
homeward heading `≈ 0.7854`. -/
def ctxC2 : Ctx :=
  { rng := fun _ => 1/2
    ocos := fun _ => 7071/10000
    osin := fun _ => 7071/10000
    oatan2 := fun _ _ => -11781/5000 }

/-- Context for the boundary-reflection scenario: the RNG yields 1/2 and the
trig oracle returns the `f32` values of `cos 4 ≈ -0.654` and
`sin 4 ≈ -0.7568`. -/
def ctxC5 : Ctx :=
  { rng := fun _ => 1/2
    ocos := fun _ => -327/500
    osin := fun _ => -3784/5000
    oatan2 := fun _ _ => 0 }

/-- Empty 100×100 world. -/
def envC5 : Environment := Environment.new 100 100

/-- A searching ant near the left margin heading into it (direction 4 rad,
inside [0, 2π)). -/
def antC5 : Ant :=
  { position := (11, 50), direction := 4, speed := 20, carrying_food := false
    home_position := (50, 50), pheromone_deposit_timer := 1
    ignore_pheromones_timer := 5, id := 0, position_history := []
    lifetime := 0, last_position_record := 0 }

/-- A colony within the off-cell delivery radius of the test ant. -/
def colonyNear : Colony :=
  { position := (20, 20), radius := 30, ants := [], food_stored := 2
    max_ants := 50, food_deliveries := 3 }

/-- Empty 100×100 world whose only colony is `colonyNear`. -/
def envC6 : Environment := { Environment.new 100 100 with colonies := [colonyNear] }

/-- An ant carrying food at (15,15), about 7 px from `colonyNear`, on an
Empty cell. -/
def antC6 : Ant :=
  { position := (15, 15), direction := 1, speed := 20, carrying_food := true
    home_position := (20, 20), pheromone_deposit_timer := 0
    ignore_pheromones_timer := 0, id := 0, position_history := []
    lifetime := 0, last_position_record := 0 }

/-- An ant-free colony holding 7 food and 2 deliveries, for the ownership-swap
scenario. -/
def colonyC9 : Colony :=
  { position := (50, 50), radius := 30, ants := [], food_stored := 7
    max_ants := 50, food_deliveries := 2 }

/-- Empty 100×100 world whose only colony is `colonyC9`. -/
def envC9 : Environment := { Environment.new 100 100 with colonies := [colonyC9] }

/-- The boundary-scenario ant already standing past the left margin. -/
def antC5b : Ant := { antC5 with position := (5, 50) }

/-- Six position samples around (100,100), several of them old and close to
the current test position: more than one record qualifies for an escape. -/
def histC8 : List PositionRecord :=
  [{ position := (100, 100), time := 1 }, { position := (101, 100), time := 2 },
   { position := (102, 101), time := 3 }, { position := (150, 150), time := 4 },
   { position := (100, 101), time := 5 }, { position := (101, 101), time := 6 }]

/-- A searching ant at (102,102) with lifetime 10 and the revisit-heavy
history `histC8`. -/
def antC8 : Ant :=
  { position := (102, 102), direction := 1, speed := 20, carrying_food := false
    home_position := (50, 50), pheromone_deposit_timer := 0
    ignore_pheromones_timer := 0, id := 0, position_history := histC8
    lifetime := 10, last_position_record := 0 }

/-- The same ant with only 3 history samples: below the 5-sample minimum. -/
def antC8short : Ant := { antC8 with position_history := histC8.take 3 }

/-- 100×100 world with a wall at cell (1,1) and a scent deposit at (5,5),
used to exercise `resize`. -/
def envC10 : Environment :=
  let e := (Environment.new 100 100).set_cell 1 1 CellType.Wall
  { e with pheromone_system := e.pheromone_system.add_pheromone 5 5 PheromoneType.Food (3/5) }

/-- A whole sequence of `add_pheromone` calls applied in order: the "for every
sequence of deposit calls" quantifier of the saturation law. -/
def depositList (ps : PheromoneSystem) : List (ℚ × ℚ × PheromoneType × ℚ) → PheromoneSystem
  | [] => ps
  | d :: ds => depositList (ps.add_pheromone d.1 d.2.1 d.2.2.1 d.2.2.2) ds

/-- All strengths stored in the scent field lie in [0, 1]. -/
def inUnit (ps : PheromoneSystem) : Prop := ∀ e ∈ ps.pheromones, 0 ≤ e.2 ∧ e.2 ≤ 1

/-! Constructor distinctness facts, registered for `simp` so that concrete
runs reduce the branch conditions of the embedded code. -/

@[simp] theorem food_ne_home : PheromoneType.Food ≠ PheromoneType.Home := fun h => nomatch h

@[simp] theorem home_ne_food : PheromoneType.Home ≠ PheromoneType.Food := fun h => nomatch h

@[simp] theorem empty_ne_wall : CellType.Empty ≠ CellType.Wall := fun h => nomatch h

@[simp] theorem empty_ne_food : CellType.Empty ≠ CellType.Food := fun h => nomatch h

@[simp] theorem empty_ne_nest : CellType.Empty ≠ CellType.AntNest := fun h => nomatch h

@[simp] theorem wall_ne_empty : CellType.Wall ≠ CellType.Empty := fun h => nomatch h

@[simp] theorem wall_ne_food : CellType.Wall ≠ CellType.Food := fun h => nomatch h

@[simp] theorem wall_ne_nest : CellType.Wall ≠ CellType.AntNest := fun h => nomatch h

@[simp] theorem food_ne_empty : CellType.Food ≠ CellType.Empty := fun h => nomatch h

@[simp] theorem food_ne_wall : CellType.Food ≠ CellType.Wall := fun h => nomatch h

@[simp] theorem food_ne_nest : CellType.Food ≠ CellType.AntNest := fun h => nomatch h

@[simp] theorem nest_ne_empty : CellType.AntNest ≠ CellType.Empty := fun h => nomatch h

@[simp] theorem nest_ne_wall : CellType.AntNest ≠ CellType.Wall := fun h => nomatch h

@[simp] theorem nest_ne_food : CellType.AntNest ≠ CellType.Food := fun h => nomatch h

/-! Small list lemmas used throughout: `getD` against `set` and `replicate`. -/

theorem getD_set_self {α : Type _} (l : List α) (i : ℕ) (v d : α) (h : i < l.length) :
    (l.set i v).getD i d = v := by
  induction l generalizing i with
  | nil => simp at h
  | cons x xs ih =>
    cases i with
    | zero => rfl
    | succ n => simpa using ih n (by simpa using h)

theorem getD_set_ne {α : Type _} (l : List α) (i j : ℕ) (v d : α) (h : j ≠ i) :
    (l.set i v).getD j d = l.getD j d := by
  induction l generalizing i j with
  | nil => rfl
  | cons x xs ih =>
    cases i with
    | zero => cases j with
      | zero => exact absurd rfl h
      | succ m => rfl
    | succ n => cases j with
      | zero => rfl
      | succ m => simpa using ih n m (by omega)

theorem getD_replicate {α : Type _} (n i : ℕ) (a d : α) (h : i < n) :
    (List.replicate n a).getD i d = a := by
  induction n generalizing i with
  | zero => omega
  | succ m ih =>
    cases i with
    | zero => rfl
    | succ j => simpa [List.replicate_succ] using ih j (by omega)

/-! Association-list facts about the sparse pheromone map. -/

theorem findP_mem (m : List (PKey × ℚ)) (k : PKey) (v : ℚ) (h : findP m k = some v) :
    (k, v) ∈ m := by
  induction m with
  | nil => simp [findP] at h
  | cons e m ih =>
    by_cases he : e.1 = k
    · simp only [findP, if_pos he] at h
      obtain ⟨a, b⟩ := e
      dsimp only at he h
      injection h with hv
      subst he
      subst hv
      exact List.mem_cons_self _ _
    · simp only [findP, if_neg he] at h
      exact List.mem_cons_of_mem _ (ih h)

theorem mem_insertP (m : List (PKey × ℚ)) (k : PKey) (v : ℚ) (e : PKey × ℚ)
    (h : e ∈ insertP m k v) : e ∈ m ∨ e = (k, v) := by
  induction m with
  | nil => simp only [insertP, List.mem_singleton] at h; exact Or.inr h
  | cons e' m ih =>
    by_cases he : e'.1 = k
    · simp only [insertP, if_pos he, List.mem_cons] at h
      rcases h with h | h
      · exact Or.inr h
      · exact Or.inl (List.mem_cons_of_mem _ h)
    · simp only [insertP, if_neg he, List.mem_cons] at h
      rcases h with h | h
      · exact Or.inl (h ▸ List.mem_cons_self _ _)
      · rcases ih h with h' | h'
        · exact Or.inl (List.mem_cons_of_mem _ h')
        · exact Or.inr h'

theorem findP_eq_none (m : List (PKey × ℚ)) (k : PKey) (h : ∀ e ∈ m, e.1 ≠ k) :
    findP m k = none := by
  induction m with
  | nil => rfl
  | cons e m ih =>
    simp only [findP, if_neg (h e (List.mem_cons_self _ _))]
    exact ih fun e' he' => h e' (List.mem_cons_of_mem _ he')

/-- A nonnegative deposit keeps every stored strength inside [0, 1]. -/
theorem add_pheromone_inUnit (ps : PheromoneSystem) (x y : ℚ) (t : PheromoneType)
    (amount : ℚ) (hps : inUnit ps) (hamt : 0 ≤ amount) :
    inUnit (ps.add_pheromone x y t amount) := by
  unfold PheromoneSystem.add_pheromone
  dsimp only
  split
  · exact hps
  · intro e he
    rcases mem_insertP _ _ _ _ he with h | h
    · exact hps e h
    · subst h
      have hcur : 0 ≤ (findP ps.pheromones
          (f32_to_usize (x / ps.grid_size), f32_to_usize (y / ps.grid_size), t)).getD 0 := by
        cases hf : findP ps.pheromones
            (f32_to_usize (x / ps.grid_size), f32_to_usize (y / ps.grid_size), t) with
        | none => simp
        | some v => simpa using (hps _ (findP_mem _ _ _ hf)).1
      dsimp only
      have h0 : (0:ℚ) ≤ (findP ps.pheromones
          (f32_to_usize (x / ps.grid_size), f32_to_usize (y / ps.grid_size), t)).getD 0
            + amount := by linarith
      exact ⟨le_min h0 (by norm_num), min_le_right _ _⟩

/-- On a field whose stored strengths are in [0, 1], every query is in [0, 1]. -/
theorem get_pheromone_inUnit (ps : PheromoneSystem) (x y : ℚ) (t : PheromoneType)
    (hps : inUnit ps) :
    0 ≤ ps.get_pheromone x y t ∧ ps.get_pheromone x y t ≤ 1 := by
  unfold PheromoneSystem.get_pheromone
  dsimp only
  split
  · norm_num
  · cases hf : findP ps.pheromones
        (f32_to_usize (x / ps.grid_size), f32_to_usize (y / ps.grid_size), t) with
    | none => norm_num
    | some v => simpa using hps _ (findP_mem _ _ _ hf)

theorem depositList_inUnit (ds : List (ℚ × ℚ × PheromoneType × ℚ)) (ps : PheromoneSystem)
    (hps : inUnit ps) (hds : ∀ d ∈ ds, 0 ≤ d.2.2.2) : inUnit (depositList ps ds) := by
  induction ds generalizing ps with
  | nil => exact hps
  | cons d ds ih =>
    exact ih _ (add_pheromone_inUnit _ _ _ _ _ hps (hds d (List.mem_cons_self _ _)))
      fun d' hd' => hds d' (List.mem_cons_of_mem _ hd')

/-- C3, counterexample.  The claim quantifies over deposits of "any amounts";
the code only clamps from above (`(current + strength).min(1.0)`), so a single
deposit of the negative amount −0.5 at an in-bounds cell makes the very next
query return −0.5, outside [0, 1]. -/
theorem negative_deposit_breaks_range :
    ((PheromoneSystem.new 800 600 10).add_pheromone 5 5 PheromoneType.Food (-1/2)).get_pheromone
      5 5 PheromoneType.Food = -1/2 ∧
    ¬ (0 ≤ ((PheromoneSystem.new 800 600 10).add_pheromone 5 5
        PheromoneType.Food (-1/2)).get_pheromone 5 5 PheromoneType.Food) := by
  constructor
  · norm_num [PheromoneSystem.new, PheromoneSystem.add_pheromone, PheromoneSystem.get_pheromone,
      f32_to_usize, findP, insertP, min_def]
  · norm_num [PheromoneSystem.new, PheromoneSystem.add_pheromone, PheromoneSystem.get_pheromone,
      f32_to_usize, findP, insertP, min_def]

/-- C3, amended: for every sequence of deposits of NONNEGATIVE amounts on a
fresh field, every subsequent query returns a strength in [0, 1]; and the
concrete scenario holds: depositing 0.6 twice at the same cell and kind yields
a queried strength of exactly 1.0 (saturating accumulation), not 1.2. -/
theorem deposit_saturation_amended (width height : ℕ) (grid_size : ℚ)
    (ds : List (ℚ × ℚ × PheromoneType × ℚ)) (hds : ∀ d ∈ ds, 0 ≤ d.2.2.2)
    (x y : ℚ) (t : PheromoneType) :
    (0 ≤ (depositList (PheromoneSystem.new width height grid_size) ds).get_pheromone x y t ∧
      (depositList (PheromoneSystem.new width height grid_size) ds).get_pheromone x y t ≤ 1) ∧
    (((PheromoneSystem.new 800 600 10).add_pheromone 5 5 PheromoneType.Food (3/5)).add_pheromone
      5 5 PheromoneType.Food (3/5)).get_pheromone 5 5 PheromoneType.Food = 1 := by
  constructor
  · exact get_pheromone_inUnit _ _ _ _
      (depositList_inUnit _ _ (fun e he => nomatch he) hds)
  · norm_num [PheromoneSystem.new, PheromoneSystem.add_pheromone, PheromoneSystem.get_pheromone,
      f32_to_usize, findP, insertP, min_def]

/-- C3, witness for the amended theorem: the deposit sequence
[0.6, 0.6] at cell (5,5) is nonnegative, and the query there returns 1. -/
theorem deposit_saturation_amended_witness :
    (depositList (PheromoneSystem.new 800 600 10)
      [(5, 5, PheromoneType.Food, 3/5), (5, 5, PheromoneType.Food, 3/5)]).get_pheromone
      5 5 PheromoneType.Food ≤ 1 := by
  refine (deposit_saturation_amended 800 600 10
    [(5, 5, PheromoneType.Food, 3/5), (5, 5, PheromoneType.Food, 3/5)] ?_ 5 5
    PheromoneType.Food).1.2
  intro d hd
  have hd' : d = (5, 5, PheromoneType.Food, (3/5 : ℚ)) ∨
      d = (5, 5, PheromoneType.Food, (3/5 : ℚ)) := by simpa using hd
  rcases hd' with h | h <;> (subst h; norm_num)

/-! Decay (C4): what `PheromoneSystem.update` does to a single entry. -/

theorem findP_filter_map_none (m : List (PKey × ℚ)) (k : PKey) (rate : ℚ)
    (p : PKey × ℚ → Bool) (h : ∀ e ∈ m, e.1 ≠ k) :
    findP ((m.map (fun e => (e.1, e.2 - rate))).filter p) k = none := by
  refine findP_eq_none _ _ fun e' he' => ?_
  have he'' : e' ∈ m.map (fun e => (e.1, e.2 - rate)) := List.mem_of_mem_filter he'
  obtain ⟨e, hem, rfl⟩ := List.mem_map.mp he''
  exact h e hem

theorem findP_decay (m : List (PKey × ℚ)) (k : PKey) (s rate : ℚ)
    (hnd : (m.map Prod.fst).Nodup) (hf : findP m k = some s) :
    findP ((m.map (fun e => (e.1, e.2 - rate))).filter
        (fun e => !decide (e.2 ≤ 1/1000))) k =
      if 1/1000 < s - rate then some (s - rate) else none := by
  induction m with
  | nil => simp [findP] at hf
  | cons e m ih =>
    simp only [List.map_cons, List.nodup_cons] at hnd
    rw [List.map_cons, List.filter_cons]
    by_cases he : e.1 = k
    · simp only [findP, if_pos he] at hf
      injection hf with hs
      subst hs
      by_cases hkeep : (1:ℚ)/1000 < e.2 - rate
      · have hb : (!decide ((e.2 : ℚ) - rate ≤ 1/1000)) = true := by
          rw [Bool.not_eq_true', decide_eq_false_iff_not]
          exact not_le.mpr hkeep
        rw [if_pos hb, if_pos hkeep]
        simp [findP, he]
      · have hb : ¬ ((!decide ((e.2 : ℚ) - rate ≤ 1/1000)) = true) := by
          rw [Bool.not_eq_true', decide_eq_false_iff_not, not_not]
          exact not_lt.mp hkeep
        rw [if_neg hb, if_neg hkeep]
        refine findP_filter_map_none m k rate _ fun e' he' hk => hnd.1 ?_
        rw [← he] at hk
        rw [← hk]
        exact List.mem_map_of_mem Prod.fst he'
    · simp only [findP, if_neg he] at hf
      have step := ih hnd.2 hf
      by_cases hkeep : (!decide ((e.2 : ℚ) - rate ≤ 1/1000)) = true
      · rw [if_pos hkeep]
        simpa [findP, he] using step
      · rw [if_neg hkeep]
        exact step

/-- C4: for every stored entry with strength `s` and every `dt`, `decay(dt)`
either stores exactly `s − 0.005·dt` (when that stays above the removal
epsilon 0.001) or removes the entry (when it falls to ≤ 0.001); and the
concrete scenario: a cell at strength 0.5 decays by exactly 0.005 per
`decay(1.0)` call, reaching 0.45 after ten calls, never removed early. -/
theorem decay_step_spec (ps : PheromoneSystem) (key : PKey) (s delta_time : ℚ)
    (hnd : (ps.pheromones.map Prod.fst).Nodup) (hs : findP ps.pheromones key = some s)
    (hpos : 0 < s) (hdt : 0 < delta_time) :
    (1/1000 < s - (1/200) * delta_time →
      findP ((ps.update delta_time).pheromones) key = some (s - (1/200) * delta_time)) ∧
    (s - (1/200) * delta_time ≤ 1/1000 →
      findP ((ps.update delta_time).pheromones) key = none) ∧
    (∀ j : ℕ, j ≤ 10 →
      findP (((fun q => PheromoneSystem.update q 1)^[j]
          ((PheromoneSystem.new 800 600 10).add_pheromone 5 5 PheromoneType.Food
            (1/2))).pheromones)
        (0, 0, PheromoneType.Food) = some (1/2 - (j : ℚ) * (1/200))) := by
  have hmain := findP_decay ps.pheromones key s ((1/200) * delta_time) hnd hs
  refine ⟨fun h => ?_, fun h => ?_, fun j hj => ?_⟩
  · unfold PheromoneSystem.update
    dsimp only
    rw [hmain, if_pos h]
  · unfold PheromoneSystem.update
    dsimp only
    rw [hmain, if_neg (by linarith)]
  · interval_cases j <;>
      norm_num [PheromoneSystem.new, PheromoneSystem.add_pheromone, PheromoneSystem.update,
        f32_to_usize, findP, insertP, min_def, Function.iterate_succ, Function.comp,
        List.filter]

/-- C4, witness: a field holding a single entry of strength 0.5 at cell (0,0)
satisfies the hypotheses, and one `decay(1.0)` leaves exactly 0.495. -/
theorem decay_step_spec_witness :
    findP ((((PheromoneSystem.new 800 600 10).add_pheromone 5 5 PheromoneType.Food
        (1/2)).update 1).pheromones) (0, 0, PheromoneType.Food) = some (99/200) := by
  have happ := (decay_step_spec
    ((PheromoneSystem.new 800 600 10).add_pheromone 5 5 PheromoneType.Food (1/2))
    (0, 0, PheromoneType.Food) (1/2) 1
    (by norm_num [PheromoneSystem.new, PheromoneSystem.add_pheromone, f32_to_usize,
        insertP, findP, min_def])
    (by norm_num [PheromoneSystem.new, PheromoneSystem.add_pheromone, f32_to_usize,
        insertP, findP, min_def])
    (by norm_num) (by norm_num)).1 (by norm_num)
  calc findP ((((PheromoneSystem.new 800 600 10).add_pheromone 5 5 PheromoneType.Food
        (1/2)).update 1).pheromones) (0, 0, PheromoneType.Food)
      = some (1/2 - (1/200) * 1) := happ
    _ = some (99/200) := by norm_num

/-- C7, counterexample.  The claim includes "positions with negative
coordinates" among the out-of-bounds no-ops, but the Rust `as usize` cast
saturates negative values to 0, so (−5,−5) resolves to the in-bounds cell
(0,0): the deposit takes effect and the query returns 0.6, not 0.0. -/
theorem negative_position_deposit_not_noop :
    ((PheromoneSystem.new 800 600 10).add_pheromone (-5) (-5) PheromoneType.Food
        (3/5)).pheromones = [((0, 0, PheromoneType.Food), 3/5)] ∧
    ((PheromoneSystem.new 800 600 10).add_pheromone (-5) (-5) PheromoneType.Food
        (3/5)).get_pheromone (-5) (-5) PheromoneType.Food = 3/5 := by
  constructor
  · norm_num [PheromoneSystem.new, PheromoneSystem.add_pheromone, f32_to_usize,
      findP, insertP, min_def]
  · norm_num [PheromoneSystem.new, PheromoneSystem.add_pheromone,
      PheromoneSystem.get_pheromone, f32_to_usize, findP, insertP, min_def]

/-- C7, amended: deposits and queries are a silent no-op / 0.0 exactly when
the RESOLVED cell index falls at or beyond the grid bounds; negative
coordinates do not qualify, because the float→usize cast saturates them to
row/column 0, which is in bounds. -/
theorem out_of_bounds_noop_amended (ps : PheromoneSystem) (x y : ℚ) (t : PheromoneType)
    (amount : ℚ)
    (h : ps.width ≤ f32_to_usize (x / ps.grid_size) ∨
      ps.height ≤ f32_to_usize (y / ps.grid_size)) :
    ps.add_pheromone x y t amount = ps ∧ ps.get_pheromone x y t = 0 := by
  unfold PheromoneSystem.add_pheromone PheromoneSystem.get_pheromone
  dsimp only
  rw [if_pos h, if_pos h]
  exact ⟨rfl, rfl⟩

/-- C7, witness for the amended theorem: the cell of (805, 5) lies at column
80 = width of an 800×600 field, so the deposit leaves the field unchanged and
the query returns 0. -/
theorem out_of_bounds_noop_amended_witness :
    (PheromoneSystem.new 800 600 10).add_pheromone 805 5 PheromoneType.Food (3/5) =
      PheromoneSystem.new 800 600 10 ∧
    (PheromoneSystem.new 800 600 10).get_pheromone 805 5 PheromoneType.Food = 0 :=
  out_of_bounds_noop_amended (PheromoneSystem.new 800 600 10) 805 5 PheromoneType.Food (3/5)
    (Or.inl (by norm_num [PheromoneSystem.new, f32_to_usize]))

/-! Resize (C10): the grid-copy fold, characterized entry by entry. -/

theorem foldl_copyCell_length (old : List CellType) (gw nw nh : ℕ) (P : List (ℕ × ℕ))
    (g : List CellType) :
    (P.foldl (copyCell old gw nw nh) g).length = g.length := by
  induction P generalizing g with
  | nil => rfl
  | cons p P ih =>
    rw [List.foldl_cons, ih]
    unfold copyCell
    split <;> simp [List.length_set]

theorem foldl_copyCell_getD_untouched (old : List CellType) (gw nw nh : ℕ)
    (P : List (ℕ × ℕ)) (g : List CellType) (t : ℕ)
    (h : ∀ yx ∈ P, yx.2 < nw ∧ yx.1 < nh → yx.1 * nw + yx.2 ≠ t) :
    (P.foldl (copyCell old gw nw nh) g).getD t CellType.Empty = g.getD t CellType.Empty := by
  induction P generalizing g with
  | nil => rfl
  | cons p P ih =>
    rw [List.foldl_cons, ih _ fun yx hyx => h yx (List.mem_cons_of_mem _ hyx)]
    unfold copyCell
    split
    · exact getD_set_ne _ _ _ _ _ fun ht =>
        h p (List.mem_cons_self _ _) (by assumption) (by rw [ht])
    · rfl

theorem foldl_copyCell_getD_written (old : List CellType) (gw nw nh : ℕ)
    (P : List (ℕ × ℕ)) (g : List CellType) (y0 x0 : ℕ)
    (hx0 : x0 < nw) (hy0 : y0 < nh) (hmem : (y0, x0) ∈ P)
    (hinj : ∀ yx ∈ P, yx.2 < nw ∧ yx.1 < nh → yx.1 * nw + yx.2 = y0 * nw + x0 →
      yx = (y0, x0))
    (hlen : y0 * nw + x0 < g.length) :
    (P.foldl (copyCell old gw nw nh) g).getD (y0 * nw + x0) CellType.Empty =
      old.getD (y0 * gw + x0) CellType.Empty := by
  induction P generalizing g with
  | nil => nomatch hmem
  | cons p P ih =>
    rw [List.foldl_cons]
    by_cases hrest : (y0, x0) ∈ P
    · exact ih _ hrest
        (fun yx hyx => hinj yx (List.mem_cons_of_mem _ hyx))
        (by rw [show (copyCell old gw nw nh g p).length = g.length by
              unfold copyCell; split <;> simp [List.length_set]]; exact hlen)
    · have hp : p = (y0, x0) := by
        rcases List.mem_cons.mp hmem with h | h
        · exact h.symm
        · exact absurd h hrest
      subst hp
      rw [foldl_copyCell_getD_untouched old gw nw nh P _ _ fun yx hyx hg ht =>
        hrest (by
          have := hinj yx (List.mem_cons_of_mem _ hyx) hg ht
          rw [← this]
          exact hyx)]
      unfold copyCell
      rw [if_pos ⟨hx0, hy0⟩]
      exact getD_set_self _ _ _ _ hlen

/-- Membership in the y-outer x-inner pair list of the copy loop. -/
theorem mem_pairList (gw gh y x : ℕ) :
    (y, x) ∈ (List.range gh).flatMap (fun y => (List.range gw).map fun x => (y, x)) ↔
      y < gh ∧ x < gw := by
  constructor
  · intro h
    obtain ⟨y', hy', hx⟩ := List.mem_flatMap.mp h
    obtain ⟨x', hx', hee⟩ := List.mem_map.mp hx
    obtain ⟨rfl, rfl⟩ : y = y' ∧ x = x' := by
      have h1 := congrArg Prod.fst hee
      have h2 := congrArg Prod.snd hee
      exact ⟨h1.symm, h2.symm⟩
    exact ⟨List.mem_range.mp hy', List.mem_range.mp hx'⟩
  · intro ⟨hy, hx⟩
    exact List.mem_flatMap.mpr ⟨y, List.mem_range.mpr hy,
      List.mem_map.mpr ⟨x, List.mem_range.mpr hx, rfl⟩⟩

/-- Row-major indices with in-range columns determine the cell. -/
theorem index_inj (a b c d nw : ℕ) (hb : b < nw) (hd : d < nw)
    (h : a * nw + b = c * nw + d) : a = c ∧ b = d := by
  have hnw : 0 < nw := Nat.pos_of_ne_zero fun h0 => by omega
  have ha : (a * nw + b) / nw = a := by
    rw [Nat.mul_comm a nw, Nat.mul_add_div hnw, Nat.div_eq_of_lt hb, Nat.add_zero]
  have hc : (c * nw + d) / nw = c := by
    rw [Nat.mul_comm c nw, Nat.mul_add_div hnw, Nat.div_eq_of_lt hd, Nat.add_zero]
  have hac : a = c := by rw [← ha, ← hc, h]
  subst hac
  exact ⟨rfl, by omega⟩

/-- What `copyGrid` stores at each cell of the enlarged grid. -/
theorem copyGrid_getD (old : List CellType) (gw gh nw nh : ℕ) (y0 x0 : ℕ)
    (hx0 : x0 < gw) (hy0 : y0 < gh) (hgw : gw ≤ nw) (hgh : gh ≤ nh) :
    (copyGrid old gw gh nw nh).getD (y0 * nw + x0) CellType.Empty =
      old.getD (y0 * gw + x0) CellType.Empty := by
  unfold copyGrid
  refine foldl_copyCell_getD_written old gw nw nh _ _ y0 x0 (by omega) (by omega)
    ((mem_pairList gw gh y0 x0).mpr ⟨hy0, hx0⟩) ?_ ?_
  · rintro ⟨y, x⟩ hyx ⟨hxw, hyh⟩ hidx
    have := index_inj y x y0 x0 nw hxw (by omega) hidx
    simp [this.1, this.2]
  · rw [List.length_replicate]
    calc y0 * nw + x0 < y0 * nw + nw := by omega
      _ = (y0 + 1) * nw := by ring
      _ ≤ nh * nw := Nat.mul_le_mul_right _ (by omega)
      _ = nw * nh := Nat.mul_comm _ _

/-- C10: every `resize` discards the whole scent field (all queries return 0
afterwards and the sparse map is empty), while a growing resize preserves
every existing terrain cell. -/
theorem resize_clears_scent_preserves_terrain (env : Environment)
    (new_width new_height : ℕ) :
    (∀ (x y : ℚ) (t : PheromoneType),
      (env.resize new_width new_height).pheromone_system.get_pheromone x y t = 0) ∧
    (env.resize new_width new_height).pheromone_system.pheromones = [] ∧
    (env.grid_width ≤ f32_to_usize ((new_width : ℚ) / 10) →
      env.grid_height ≤ f32_to_usize ((new_height : ℚ) / 10) →
      (env.grid_width < f32_to_usize ((new_width : ℚ) / 10) ∨
        env.grid_height < f32_to_usize ((new_height : ℚ) / 10)) →
      ∀ gx gy : ℕ, gx < env.grid_width → gy < env.grid_height →
        (env.resize new_width new_height).get_cell gx gy = env.get_cell gx gy) := by
  refine ⟨?_, ?_, ?_⟩
  · intro x y t
    show (PheromoneSystem.new new_width new_height 10).get_pheromone x y t = 0
    unfold PheromoneSystem.get_pheromone PheromoneSystem.new
    dsimp only
    split
    · rfl
    · rfl
  · rfl
  · intro hle1 hle2 hgrow gx gy hgx hgy
    have hcond : f32_to_usize ((new_width : ℚ) / 10) > env.grid_width ∨
        f32_to_usize ((new_height : ℚ) / 10) > env.grid_height := by
      rcases hgrow with h | h
      · exact Or.inl h
      · exact Or.inr h
    show Environment.get_cell _ gx gy = _
    unfold Environment.resize
    dsimp only
    rw [if_pos hcond]
    unfold Environment.get_cell Environment.is_valid_position
    dsimp only
    rw [if_pos ⟨by omega, by omega⟩, if_pos ⟨hgx, hgy⟩]
    exact copyGrid_getD env.grid env.grid_width env.grid_height _ _ gy gx hgx hgy hle1 hle2

/-- C10, witness: growing a 100×100 world (10×10 grid) to 200×200 keeps the
wall at cell (1,1) and wipes the scent deposit at (5,5). -/
theorem resize_clears_scent_preserves_terrain_witness :
    (envC10.resize 200 200).pheromone_system.get_pheromone 5 5 PheromoneType.Food = 0 ∧
    (envC10.resize 200 200).get_cell 1 1 = envC10.get_cell 1 1 := by
  have h := resize_clears_scent_preserves_terrain envC10 200 200
  refine ⟨h.1 5 5 PheromoneType.Food, ?_⟩
  refine h.2.2 ?_ ?_ ?_ 1 1 ?_ ?_ <;>
    norm_num [envC10, Environment.new, Environment.set_cell, Environment.is_valid_position,
      f32_to_usize, Int.toNat, PheromoneSystem.new, PheromoneSystem.add_pheromone,
      findP, insertP, min_def]

/-! Food pickup (C2) and failed delivery (C1). -/

/-- C2, counterexample.  On a concrete pickup (searching ant on a Food cell)
the transition happens (carrying becomes true), but the strong 0.9 marker
deposited at the pickup point is a FOOD-trail marker, not the Home-trail
marker the claim describes: after the tick the Home query at the pickup point
is still 0 while the Food query is 0.9. -/
theorem pickup_deposits_food_marker_not_home :
    (Ant.check_for_food ctxC2 antC2 envC2 0).1.carrying_food = true ∧
    (Ant.check_for_food ctxC2 antC2 envC2 0).2.1.pheromone_system.get_pheromone 15 15
      PheromoneType.Home = 0 ∧
    (Ant.check_for_food ctxC2 antC2 envC2 0).2.1.pheromone_system.get_pheromone 15 15
      PheromoneType.Food = 9/10 := by
  refine ⟨?_, ?_, ?_⟩ <;>
    norm_num [Ant.check_for_food, Environment.screen_to_grid, Environment.get_cell,
      Environment.is_valid_position, Environment.set_cell, Environment.new, f32_to_usize,
      deliverFirst, firstWithin, closestLoop, distSq, defaultColony, Colony.add_food,
      rrem, qtrunc, pi32, PheromoneSystem.new, PheromoneSystem.add_pheromone,
      PheromoneSystem.get_pheromone, findP, insertP, min_def,
      getD_set_self, getD_set_ne, getD_replicate, List.length_set, List.length_replicate,
      Int.toNat, List.getElem?_set_self, List.getElem?_replicate,
      antC2, envC2, ctxC2]

/-- C2, amended: a searching agent on a Food cell, within that call, sets
`carrying_food`, starts the 15-second scent-ignore timer, deposits a strong
(0.9) FOOD-trail marker at the pickup point, points its heading toward
`home_position` plus a jitter, and steps exactly the fixed escape distance of
15 px along the new heading. -/
theorem pickup_transition_spec (ctx : Ctx) (a : Ant) (env : Environment) (k : ℕ)
    (hcarry : a.carrying_food = false)
    (hfood : env.get_cell (env.screen_to_grid a.position.1 a.position.2).1
      (env.screen_to_grid a.position.1 a.position.2).2 = CellType.Food) :
    (Ant.check_for_food ctx a env k).1.carrying_food = true ∧
    (Ant.check_for_food ctx a env k).1.ignore_pheromones_timer = 15 ∧
    (Ant.check_for_food ctx a env k).2.1.pheromone_system =
      env.pheromone_system.add_pheromone a.position.1 a.position.2 PheromoneType.Food
        (9/10) ∧
    (Ant.check_for_food ctx a env k).1.direction =
      rrem (ctx.oatan2 (a.position.2 - a.home_position.2)
          (a.position.1 - a.home_position.1) + pi32) (2 * pi32) +
        (ctx.rng k - 1/2) * (1/2) ∧
    (Ant.check_for_food ctx a env k).1.position =
      (a.position.1 + ctx.ocos (Ant.check_for_food ctx a env k).1.direction * 15,
       a.position.2 + ctx.osin (Ant.check_for_food ctx a env k).1.direction * 15) := by
  unfold Ant.check_for_food
  dsimp only
  rw [if_pos ⟨hcarry, hfood⟩]
  exact ⟨rfl, rfl, rfl, rfl, rfl⟩

/-- C2, witness: the concrete pickup scenario satisfies the hypotheses, and
the pickup sets the flag and the 15-second timer. -/
theorem pickup_transition_spec_witness :
    (Ant.check_for_food ctxC2 antC2 envC2 0).1.ignore_pheromones_timer = 15 ∧
    (Ant.check_for_food ctxC2 antC2 envC2 0).1.position =
      (antC2.position.1 + ctxC2.ocos (Ant.check_for_food ctxC2 antC2 envC2 0).1.direction
        * 15,
       antC2.position.2 + ctxC2.osin (Ant.check_for_food ctxC2 antC2 envC2 0).1.direction
        * 15) := by
  have h := pickup_transition_spec ctxC2 antC2 envC2 0 rfl
    (by norm_num [Environment.screen_to_grid, Environment.get_cell,
      Environment.is_valid_position, Environment.set_cell, Environment.new, f32_to_usize,
      Int.toNat, getD_set_self, getD_set_ne, getD_replicate, List.length_set,
      List.length_replicate, antC2, envC2])
  exact ⟨h.2.1, h.2.2.2.2⟩

/-- C1: when an ant carrying food stands on a nest cell and every colony is
beyond even the lenient 150-px fallback radius, the code still clears
`carrying_food` (the flag is cleared unconditionally at the top of the nest
branch, so the food is lost without any delivery), repoints `home_position`
to the nearest colony, and leaves every colony's `food_stored` and
`delivery_count` unchanged.  This contradicts the claim's (and the spec's)
"does not drop the food — carrying_food stays true". -/
theorem check_for_food_far_colony_loses_food :
    (Ant.check_for_food ctx0 antC1 envC1 0).1.carrying_food = false ∧
    (Ant.check_for_food ctx0 antC1 envC1 0).1.home_position = (400, 0) ∧
    (Ant.check_for_food ctx0 antC1 envC1 0).2.1.colonies = [colonyFar] ∧
    colonyFar.food_stored = 0 ∧ colonyFar.food_deliveries = 0 := by
  refine ⟨?_, ?_, ?_, rfl, rfl⟩ <;>
    norm_num [Ant.check_for_food, Environment.screen_to_grid, Environment.get_cell,
      Environment.is_valid_position, Environment.set_cell, Environment.new, f32_to_usize,
      deliverFirst, firstWithin, closestLoop, distSq, defaultColony, Colony.add_food,
      rrem, qtrunc, pi32, PheromoneSystem.new, PheromoneSystem.add_pheromone,
      PheromoneSystem.get_pheromone, findP, insertP, min_def,
      getD_set_self, getD_set_ne, getD_replicate, List.length_set, List.length_replicate,
      Int.toNat, List.getElem?_set_self, List.getElem?_replicate,
      antC1, envC1, colonyFar, ctx0]

/-! Delivery (C6): the break-on-first-hit loops credit exactly one colony. -/

theorem add_food_stats (c : Colony) (amount : ℚ) :
    (c.add_food amount).food_stored = c.food_stored + amount ∧
    (c.add_food amount).food_deliveries = c.food_deliveries + 1 := by
  unfold Colony.add_food
  dsimp only
  split <;> exact ⟨rfl, rfl⟩

theorem firstWithin_some_of_exists (p : ℚ × ℚ) (rsq : ℚ) (cols : List Colony)
    (hex : ∃ c ∈ cols, distSq p c.position < rsq) :
    ∃ i, firstWithin p rsq cols = some i ∧ i < cols.length ∧
      distSq p (cols.getD i defaultColony).position < rsq := by
  induction cols with
  | nil => obtain ⟨c, hc, _⟩ := hex; nomatch hc
  | cons c cs ih =>
    by_cases hc0 : distSq p c.position < rsq
    · exact ⟨0, by simp [firstWithin, hc0], by simp, by simpa using hc0⟩
    · obtain ⟨c', hc', hd'⟩ := hex
      rcases List.mem_cons.mp hc' with h | h
      · exact absurd (h ▸ hd') hc0
      · obtain ⟨i, hfw, hlt, hdist⟩ := ih ⟨c', h, hd'⟩
        refine ⟨i + 1, ?_, by simpa using Nat.succ_lt_succ hlt, by simpa using hdist⟩
        simp [firstWithin, hc0, hfw]

/-- C6: an agent carrying food within 40 px of some colony delivers within the
`check_for_food` call: its carrying flag is cleared and exactly one colony
gains exactly 1 food and exactly 1 delivery, every other colony unchanged.
(This covers both the on-nest-cell branch, whose strict radius 50 also
succeeds, and the off-cell branch with radius 40.) -/
theorem delivery_increments_exactly_one_colony (ctx : Ctx) (a : Ant) (env : Environment)
    (k : ℕ) (hcarry : a.carrying_food = true)
    (hnear : ∃ c ∈ env.colonies, distSq a.position c.position < 40 * 40) :
    (Ant.check_for_food ctx a env k).1.carrying_food = false ∧
    ∃ i, i < env.colonies.length ∧
      ((Ant.check_for_food ctx a env k).2.1.colonies.getD i defaultColony).food_stored =
        (env.colonies.getD i defaultColony).food_stored + 1 ∧
      ((Ant.check_for_food ctx a env k).2.1.colonies.getD i defaultColony).food_deliveries =
        (env.colonies.getD i defaultColony).food_deliveries + 1 ∧
      ∀ j, j ≠ i →
        (Ant.check_for_food ctx a env k).2.1.colonies.getD j defaultColony =
          env.colonies.getD j defaultColony := by
  obtain ⟨c0, hc0mem, hc0⟩ := hnear
  unfold Ant.check_for_food
  dsimp only
  rw [if_neg (by simp [hcarry])]
  by_cases hnest : env.get_cell (env.screen_to_grid a.position.1 a.position.2).1
      (env.screen_to_grid a.position.1 a.position.2).2 = CellType.AntNest
  · rw [if_pos ⟨hcarry, hnest⟩]
    obtain ⟨i, hfw, hilt, _⟩ := firstWithin_some_of_exists a.position (50 * 50)
      env.colonies ⟨c0, hc0mem, by linarith⟩
    simp only [deliverFirst, hfw]
    rw [if_pos trivial]
    refine ⟨rfl, i, hilt, ?_, ?_, ?_⟩
    · rw [getD_set_self _ _ _ _ hilt]
      exact (add_food_stats _ _).1
    · rw [getD_set_self _ _ _ _ hilt]
      exact (add_food_stats _ _).2
    · intro j hj
      exact getD_set_ne _ _ _ _ _ hj
  · rw [if_neg fun h => hnest h.2, if_pos hcarry]
    obtain ⟨i, hfw, hilt, _⟩ := firstWithin_some_of_exists a.position (40 * 40)
      env.colonies ⟨c0, hc0mem, hc0⟩
    simp only [hfw]
    refine ⟨trivial, i, hilt, ?_, ?_, ?_⟩
    · rw [getD_set_self _ _ _ _ hilt]
      exact (add_food_stats _ _).1
    · rw [getD_set_self _ _ _ _ hilt]
      exact (add_food_stats _ _).2
    · intro j hj
      exact getD_set_ne _ _ _ _ _ hj

/-- C6, witness: the carrying ant 7 px from `colonyNear` (stored food 2,
3 deliveries) delivers: flag cleared and exactly one colony credited. -/
theorem delivery_increments_exactly_one_colony_witness :
    (Ant.check_for_food ctx0 antC6 envC6 0).1.carrying_food = false ∧
    ∃ i, i < envC6.colonies.length ∧
      ((Ant.check_for_food ctx0 antC6 envC6 0).2.1.colonies.getD i
        defaultColony).food_stored =
        (envC6.colonies.getD i defaultColony).food_stored + 1 ∧
      ((Ant.check_for_food ctx0 antC6 envC6 0).2.1.colonies.getD i
        defaultColony).food_deliveries =
        (envC6.colonies.getD i defaultColony).food_deliveries + 1 ∧
      ∀ j, j ≠ i →
        (Ant.check_for_food ctx0 antC6 envC6 0).2.1.colonies.getD j defaultColony =
          envC6.colonies.getD j defaultColony :=
  delivery_increments_exactly_one_colony ctx0 antC6 envC6 0 rfl
    ⟨colonyNear, by simp [envC6], by norm_num [distSq, antC6, colonyNear]⟩

/-! Loop detection (C8): no trigger below 5 samples, at most one escape per
pass, and an escape always clears the history. -/

theorem detectLoop_spec (ctx : Ctx) (cp : ℚ × ℚ) (ct : ℚ) (rs : List PositionRecord)
    (a : Ant) (env : Environment) (k : ℕ) :
    (detectLoop ctx cp ct rs a env k).escapes ≤ 1 ∧
    ((detectLoop ctx cp ct rs a env k).escapes = 1 →
      (detectLoop ctx cp ct rs a env k).ant.position_history = []) := by
  induction rs generalizing a env k with
  | nil =>
    refine ⟨by simp [detectLoop], fun h => ?_⟩
    simp [detectLoop] at h
  | cons r rs ih =>
    unfold detectLoop
    dsimp only
    split_ifs <;>
      first
        | exact ih a env k
        | exact ⟨le_refl 1, fun _ => rfl⟩

/-- C8: `detect_circles` takes no action at all when the position history has
fewer than 5 samples; in any pass at most one escape action fires, and
whenever an escape fires the entire position history has been cleared. -/
theorem detect_circles_guard_and_single_escape (ctx : Ctx) (a : Ant) (env : Environment)
    (k : ℕ) :
    (a.position_history.length < 5 →
      Ant.detect_circles ctx a env k = ⟨a, env, k, 0⟩) ∧
    (Ant.detect_circles ctx a env k).escapes ≤ 1 ∧
    ((Ant.detect_circles ctx a env k).escapes = 1 →
      (Ant.detect_circles ctx a env k).ant.position_history = []) := by
  refine ⟨fun h => ?_, ?_, ?_⟩
  · unfold Ant.detect_circles
    rw [if_pos h]
  · unfold Ant.detect_circles
    split
    · simp
    · exact (detectLoop_spec ctx a.position a.lifetime a.position_history a env k).1
  · unfold Ant.detect_circles
    split
    · intro h
      simp at h
    · exact (detectLoop_spec ctx a.position a.lifetime a.position_history a env k).2

/-- C8, witness: a searching ant revisiting an old position with 6 history
samples, several of them qualifying, escapes exactly once and ends with an
empty history; and a 3-sample history triggers nothing. -/
theorem detect_circles_guard_and_single_escape_witness :
    (Ant.detect_circles ctx0 antC8 envC5 0).escapes ≤ 1 ∧
    ((Ant.detect_circles ctx0 antC8 envC5 0).escapes = 1 →
      (Ant.detect_circles ctx0 antC8 envC5 0).ant.position_history = []) ∧
    Ant.detect_circles ctx0 antC8short envC5 3 = ⟨antC8short, envC5, 3, 0⟩ := by
  refine ⟨(detect_circles_guard_and_single_escape ctx0 antC8 envC5 0).2.1,
    (detect_circles_guard_and_single_escape ctx0 antC8 envC5 0).2.2,
    (detect_circles_guard_and_single_escape ctx0 antC8short envC5 3).1 (by
      norm_num [antC8short])⟩

/-! Ownership swap (C9): while a colony updates, its list slot holds the
Default placeholder; the write-back discards whatever was added to the slot. -/

theorem deliverFirst_length (p : ℚ × ℚ) (rsq : ℚ) (cols : List Colony) :
    (deliverFirst p rsq cols).1.length = cols.length := by
  unfold deliverFirst
  cases firstWithin p rsq cols <;> simp [List.length_set]

theorem check_for_food_colonies_length (ctx : Ctx) (a : Ant) (env : Environment) (k : ℕ) :
    (Ant.check_for_food ctx a env k).2.1.colonies.length = env.colonies.length := by
  unfold Ant.check_for_food deliverFirst
  dsimp only
  repeat' split
  all_goals simp [List.length_set]

theorem detectLoop_colonies (ctx : Ctx) (cp : ℚ × ℚ) (ct : ℚ) (rs : List PositionRecord)
    (a : Ant) (env : Environment) (k : ℕ) :
    (detectLoop ctx cp ct rs a env k).env.colonies = env.colonies := by
  induction rs generalizing a env k with
  | nil => rfl
  | cons r rs ih =>
    unfold detectLoop
    dsimp only
    split_ifs <;> first | rfl | exact ih a env k

theorem detect_circles_colonies (ctx : Ctx) (a : Ant) (env : Environment) (k : ℕ) :
    (Ant.detect_circles ctx a env k).env.colonies = env.colonies := by
  unfold Ant.detect_circles
  split
  · rfl
  · exact detectLoop_colonies ctx a.position a.lifetime a.position_history a env k

theorem ant_update_colonies_length (ctx : Ctx) (delta_time : ℚ) (a : Ant)
    (env : Environment) (k : ℕ) :
    (Ant.update ctx delta_time a env k).2.1.colonies.length = env.colonies.length := by
  unfold Ant.update
  dsimp only
  rw [check_for_food_colonies_length]
  split_ifs <;>
    first
      | rfl
      | (dsimp only; rw [detect_circles_colonies])

theorem antsFold_colonies_length (ctx : Ctx) (delta_time : ℚ) (ants : List Ant)
    (env : Environment) (k : ℕ) :
    (antsFold ctx delta_time ants env k).2.1.colonies.length = env.colonies.length := by
  induction ants generalizing env k with
  | nil => rfl
  | cons a ants ih =>
    unfold antsFold
    dsimp only
    rw [ih, ant_update_colonies_length]

/-- `Colony::update` never touches its own delivery counter, changes its own
food only by the −10 spawn cost, and preserves the length of the
environment's colony list. -/
theorem colony_update_stats (ctx : Ctx) (delta_time : ℚ) (c : Colony) (env : Environment)
    (k nid : ℕ) :
    (Colony.update ctx delta_time c env k nid).1.food_deliveries = c.food_deliveries ∧
    ((Colony.update ctx delta_time c env k nid).1.food_stored = c.food_stored ∨
      (Colony.update ctx delta_time c env k nid).1.food_stored = c.food_stored - 10) ∧
    (Colony.update ctx delta_time c env k nid).2.1.colonies.length =
      env.colonies.length := by
  unfold Colony.update
  dsimp only
  split_ifs
  · exact ⟨rfl, Or.inr rfl, antsFold_colonies_length ctx delta_time c.ants env k⟩
  · exact ⟨rfl, Or.inl rfl, antsFold_colonies_length ctx delta_time c.ants env k⟩

/-- C9: during `Environment::update`, the colony being updated is replaced in
the environment's list by the `Default` placeholder (origin position, zero
radius, no ants); the write-back of `colonyStep` overwrites slot `i` with the
separately-updated colony, so food a delivery added to the placeholder is
discarded; consequently the colony's own `food_deliveries` counter cannot
change during its own update, and its `food_stored` changes only by the spawn
cost. -/
theorem colony_placeholder_during_own_update (ctx : Ctx) (delta_time : ℚ)
    (env : Environment) (i k nid : ℕ) (hi : i < env.colonies.length) :
    ({ env with colonies := env.colonies.set i defaultColony }).colonies.getD i
        defaultColony = defaultColony ∧
    defaultColony.position = (0, 0) ∧ defaultColony.radius = 0 ∧
      defaultColony.ants = [] ∧
    (colonyStep ctx delta_time env i k nid).1.colonies.getD i defaultColony =
      (Colony.update ctx delta_time (env.colonies.getD i defaultColony)
        { env with colonies := env.colonies.set i defaultColony } k nid).1 ∧
    (Colony.update ctx delta_time (env.colonies.getD i defaultColony)
        { env with colonies := env.colonies.set i defaultColony } k nid).1.food_deliveries =
      (env.colonies.getD i defaultColony).food_deliveries ∧
    ((Colony.update ctx delta_time (env.colonies.getD i defaultColony)
        { env with colonies := env.colonies.set i defaultColony } k nid).1.food_stored =
        (env.colonies.getD i defaultColony).food_stored ∨
      (Colony.update ctx delta_time (env.colonies.getD i defaultColony)
        { env with colonies := env.colonies.set i defaultColony } k nid).1.food_stored =
        (env.colonies.getD i defaultColony).food_stored - 10) := by
  have hstats := colony_update_stats ctx delta_time (env.colonies.getD i defaultColony)
    { env with colonies := env.colonies.set i defaultColony } k nid
  refine ⟨getD_set_self _ _ _ _ hi, rfl, rfl, rfl, ?_, hstats.1, hstats.2.1⟩
  unfold colonyStep
  dsimp only
  refine getD_set_self _ _ _ _ ?_
  rw [hstats.2.2]
  simpa [List.length_set] using hi

/-- C9, witness: a world with a single ant-free colony holding 7 food: after
its own `colonyStep`, the colony still has 7 food and 2 deliveries (nothing
delivered to it during its own update), and the mid-update list slot held the
placeholder. -/
theorem colony_placeholder_during_own_update_witness :
    ({ envC9 with colonies := envC9.colonies.set 0 defaultColony }).colonies.getD 0
        defaultColony = defaultColony ∧
    (colonyStep ctx0 1 envC9 0 0 0).1.colonies.getD 0 defaultColony =
      (Colony.update ctx0 1 (envC9.colonies.getD 0 defaultColony)
        { envC9 with colonies := envC9.colonies.set 0 defaultColony } 0 0).1 ∧
    (Colony.update ctx0 1 (envC9.colonies.getD 0 defaultColony)
        { envC9 with colonies := envC9.colonies.set 0 defaultColony } 0 0).1.food_deliveries =
      (envC9.colonies.getD 0 defaultColony).food_deliveries := by
  have h := colony_placeholder_during_own_update ctx0 1 envC9 0 0 0
    (by norm_num [envC9, colonyC9])
  exact ⟨h.1, h.2.2.2.2.1, h.2.2.2.2.2.1⟩

/-! Heading wrap (C5): `Ant::update` applies no final normalization. -/

/-- C5, counterexample.  A searching ant starts the tick with heading 4 rad,
inside [0, 2π); its movement crosses the left margin, the boundary reflection
assigns `π − heading ≈ −0.86`, and update ends with a negative heading: the
wrap invariant "heading ∈ [0, 2π) after every update" fails. -/
theorem update_heading_leaves_interval :
    (0 ≤ antC5.direction ∧ antC5.direction < 2 * pi32) ∧
    ¬ (0 ≤ (Ant.update ctxC5 (1/10) antC5 envC5 0).1.direction) := by
  constructor
  · norm_num [antC5, pi32]
  · norm_num [Ant.update, Ant.boundary_bounce, Ant.check_for_food, Ant.detect_circles,
      Environment.screen_to_grid, Environment.get_cell,
      Environment.is_valid_position, Environment.new, f32_to_usize,
      deliverFirst, firstWithin, closestLoop, distSq, defaultColony,
      rrem, qtrunc, pi32, PheromoneSystem.new, PheromoneSystem.add_pheromone,
      findP, insertP, min_def,
      getD_set_self, getD_set_ne, getD_replicate, List.length_set, List.length_replicate,
      Int.toNat, List.getElem?_set_self, List.getElem?_replicate,
      antC5, envC5, ctxC5]

/-- C5, amended: the heading is NOT renormalized by `Ant::update`; in
particular its closing boundary-reflection step maps any heading above π at
the left margin to `π − heading`, a negative value, and no wrap into [0, 2π)
follows.  (The spec's wrap invariant holds only at the isolated points where
the code takes an explicit `% 2π`.) -/
theorem boundary_bounce_no_wrap (env : Environment) (a : Ant)
    (h1 : a.position.1 < 10) (h2 : pi32 < a.direction)
    (h3 : ¬ (a.position.2 < 10)) (h4 : ¬ ((env.height : ℚ) - 10 < a.position.2)) :
    (Ant.boundary_bounce env a).direction = pi32 - a.direction ∧
    (Ant.boundary_bounce env a).direction < 0 := by
  unfold Ant.boundary_bounce
  dsimp only
  rw [if_pos h1]
  dsimp only
  rw [if_neg h3, if_neg h4]
  exact ⟨rfl, by dsimp only; linarith⟩

/-- C5, witness for the amended theorem: the ant at (5,50) with heading 4 in
a 100×100 world satisfies the hypotheses, and the bounce yields the negative
heading π − 4. -/
theorem boundary_bounce_no_wrap_witness :
    (Ant.boundary_bounce envC5 antC5b).direction = pi32 - 4 ∧
    (Ant.boundary_bounce envC5 antC5b).direction < 0 := by
  have h := boundary_bounce_no_wrap envC5 antC5b
    (by norm_num [antC5b, antC5]) (by norm_num [antC5b, antC5, pi32])
    (by norm_num [antC5b, antC5]) (by norm_num [antC5b, antC5, envC5, Environment.new])
  refine ⟨?_, h.2⟩
  rw [h.1]
  norm_num [antC5b, antC5]

end AntSim
